import Mathlib

/-!
Verification of the OS4P financial/emissions calculation engine.

This file is a shallow embedding in Lean 4 of the calculation logic of the
OS4P repository: the function `calculate_os4p` of `OS4P_dashboard.py`
(lines 46-191), its helper `calculate_innovation_fund_score` (lines 29-44),
the sensitivity-chart scoring of `create_innovation_fund_score_chart`
(lines 281-289), and the older variant `calculate_os4p` of `OS4P.py`
(lines 6-45).

Modelling conventions:
* Python float arithmetic is embedded as exact arithmetic on `ℚ`; claims are
  about the formula structure, not about IEEE-754 rounding.
* Python raises `ZeroDivisionError` on float division by zero and on raising
  `0.0` to a negative power, so every such operation in the source becomes an
  explicit guard, and the embedded functions return `Except PyErr _`.
* `float('inf')` values produced by the sentinel branches of the source are
  embedded by the two-constructor type `PyNum` (finite rational or `inf`).
* Python's built-in `round` is round-half-to-even; it is embedded by
  `pyRound` below.
-/

/-- The exception a Python float division by zero (or `0.0 ** negative`)
raises.  The source defines no exception type of its own (in particular no
`InvalidInputError`), so this is the only error that the embedded
calculation can produce. -/
inductive PyErr where
  | zeroDivision
deriving DecidableEq, Repr, Inhabited

/-- A Python float value that is either a finite number (embedded exactly as
a rational) or the distinguished value `float('inf')` used as a sentinel by
the source. -/
inductive PyNum where
  | fin : ℚ → PyNum
  | inf : PyNum
deriving DecidableEq, Repr, Inhabited

/-- Python's built-in `round` on an exact rational: round half to even
(banker's rounding), which is what CPython's `round` implements. -/
def pyRound (q : ℚ) : ℤ :=
  if q - ⌊q⌋ < 1/2 then ⌊q⌋
  else if 1/2 < q - ⌊q⌋ then ⌊q⌋ + 1
  else if ⌊q⌋ % 2 = 0 then ⌊q⌋ else ⌊q⌋ + 1

/-- Python's built-in `max` on two numbers: returns the second argument when
it is strictly greater, the first otherwise.  (Definitionally equal to
`max a b` on `ℚ`; defined explicitly so that the kernel can evaluate it.) -/
def pymax (a b : ℚ) : ℚ := if a < b then b else a

theorem pymax_eq_max (a b : ℚ) : pymax a b = max a b := by
  unfold pymax
  rcases lt_or_le a b with h | h
  · simp [h, max_eq_right h.le]
  · simp [not_lt.2 h, max_eq_left h]

/-- Embeds `calculate_innovation_fund_score` (OS4P_dashboard.py lines 29-44):
if the cost-efficiency ratio is `<= 2000` the score is
`12 - 12 * (ratio / 2000)`, rounded to the nearest half point by
`round(score * 2) / 2` and floored at `0` with `max(0, score)`; otherwise
the score is `0`.  An infinite ratio fails the `<= 2000` comparison and
falls into the `else 0` branch, exactly as in Python. -/
def calculate_innovation_fund_score ( cost_efficiency_ratio : PyNum) : ℚ :=
  match cost_efficiency_ratio with
  | .fin r =>
      if r ≤ 2000 then
        let score := 12 - (12 * (r / 2000))
        let score := (pyRound (score * 2) : ℚ) / 2
        pymax 0 score
      else 0
  | .inf => 0

example : calculate_innovation_fund_score (.fin 0) = 12 := by
  norm_num [calculate_innovation_fund_score, pyRound, pymax]
example : calculate_innovation_fund_score (.fin 1000) = 6 := by
  norm_num [calculate_innovation_fund_score, pyRound, pymax]
example : calculate_innovation_fund_score .inf = 0 := rfl

/-- The flat input record of `calculate_os4p` (OS4P_dashboard.py lines
46-69).  Each field is one key of the Python `params` dict; the two keys the
source reads with `params.get(key, default)` instead of `params[key]` are
`Option`-valued. -/
structure OS4PParams where
  num_outposts : ℚ
  large_patrol_fuel : ℚ
  rib_fuel : ℚ
  small_patrol_fuel : ℚ
  hours_per_day_base : ℚ
  interest_rate : ℚ
  loan_years : ℤ
  sla_premium : ℚ
  operating_days_per_year : ℚ
  co2_factor : ℚ
  maintenance_emissions : ℚ
  microgrid_capex : ℚ
  drones_capex : ℚ
  maintenance_opex : ℚ
  communications_opex : ℚ
  security_opex : ℚ
  number_diesel_generators : Option ℚ
  genset_fuel_per_hour : ℚ
  genset_operating_hours : ℚ
  num_ms240_gd_vehicles : ℚ
  ms240_gd_fuel_consumption : ℚ
  num_large_patrol_boats : ℚ
  num_rib_boats : ℚ
  num_small_patrol_boats : ℚ
  lifetime_years : ℚ
  non_unit_cost_pct : Option ℚ
  annual_energy_production : ℚ

/-- Embeds `params.get("number_diesel_generators", 1)` (line 69). -/
def diesel_generator_count (p : OS4PParams) : ℚ :=
  p.number_diesel_generators.getD 1

/-- Embeds `genset_fuel_per_day` (line 71). -/
def genset_fuel_per_day (p : OS4PParams) : ℚ :=
  p.genset_fuel_per_hour * p.genset_operating_hours * diesel_generator_count p

/-- Embeds `ms240_gd_fuel_per_day` (line 72). -/
def ms240_gd_fuel_per_day (p : OS4PParams) : ℚ :=
  p.num_ms240_gd_vehicles * p.ms240_gd_fuel_consumption * p.hours_per_day_base

/-- Embeds `daily_fuel_consumption` (lines 73-77). -/
def daily_fuel_consumption (p : OS4PParams) : ℚ :=
  (p.num_large_patrol_boats * p.large_patrol_fuel +
    p.num_rib_boats * p.rib_fuel +
    p.num_small_patrol_boats * p.small_patrol_fuel) * p.hours_per_day_base
  + genset_fuel_per_day p + ms240_gd_fuel_per_day p

/-- Embeds `annual_fuel_consumption` (line 78). -/
def annual_fuel_consumption (p : OS4PParams) : ℚ :=
  daily_fuel_consumption p * p.operating_days_per_year

/-- Embeds `manned_co2_emissions` (line 79), kg CO₂ per year. -/
def manned_co2_emissions (p : OS4PParams) : ℚ :=
  annual_fuel_consumption p * p.co2_factor

/-- Embeds `autonomous_co2_emissions` (line 80). -/
def autonomous_co2_emissions (p : OS4PParams) : ℚ :=
  p.maintenance_emissions

/-- Embeds `ghg_abs_avoidance_per_outpost` (line 83), tonnes. -/
def ghg_abs_avoidance_per_outpost (p : OS4PParams) : ℚ :=
  (manned_co2_emissions p - autonomous_co2_emissions p) / 1000

/-- Embeds `ghg_abs_avoidance_all_outposts` (line 84). -/
def ghg_abs_avoidance_all_outposts (p : OS4PParams) : ℚ :=
  ghg_abs_avoidance_per_outpost p * p.num_outposts

/-- Embeds `ghg_abs_avoidance_lifetime` (line 86). -/
def ghg_abs_avoidance_lifetime (p : OS4PParams) : ℚ :=
  ghg_abs_avoidance_all_outposts p * p.lifetime_years

/-- Embeds `ghg_rel_avoidance` (lines 88-91). -/
def ghg_rel_avoidance (p : OS4PParams) : ℚ :=
  if manned_co2_emissions p > 0 then
    ((manned_co2_emissions p - autonomous_co2_emissions p) / manned_co2_emissions p) * 100
  else 0

/-- Embeds `total_capex_per_outpost` (line 94). -/
def total_capex_per_outpost (p : OS4PParams) : ℚ :=
  p.microgrid_capex + p.drones_capex

/-- Embeds `total_capex` (line 95). -/
def total_capex (p : OS4PParams) : ℚ :=
  total_capex_per_outpost p * p.num_outposts

/-- Embeds `annual_opex_per_outpost` (line 96). -/
def annual_opex_per_outpost (p : OS4PParams) : ℚ :=
  p.maintenance_opex + p.communications_opex + p.security_opex

/-- Embeds `annual_opex` (line 97). -/
def annual_opex (p : OS4PParams) : ℚ :=
  annual_opex_per_outpost p * p.num_outposts

/-- Embeds `lifetime_opex` (line 98). -/
def lifetime_opex (p : OS4PParams) : ℚ :=
  annual_opex p * (p.loan_years : ℚ)

/-- Embeds `pilot_markup` (line 100). -/
def pilot_markup (p : OS4PParams) : ℚ :=
  total_capex p * 1.25

/-- Embeds `non_unit_cost` (lines 101-102); `params.get("non_unit_cost_pct", 0)`. -/
def non_unit_cost (p : OS4PParams) : ℚ :=
  pilot_markup p * (p.non_unit_cost_pct.getD 0 / 100)

/-- Embeds `total_pilot_cost` (line 103). -/
def total_pilot_cost (p : OS4PParams) : ℚ :=
  pilot_markup p + non_unit_cost p

/-- Embeds `total_grant` (lines 105-106): `grant_coverage = 0.60`. -/
def total_grant (p : OS4PParams) : ℚ :=
  0.60 * total_pilot_cost p

/-- Embeds `debt` (line 107). -/
def debt (p : OS4PParams) : ℚ :=
  total_pilot_cost p - total_grant p

/-- Embeds `monthly_interest_rate` (line 109). -/
def monthly_interest_rate (p : OS4PParams) : ℚ :=
  p.interest_rate / 100 / 12

/-- Embeds `num_months` (line 110); an integer because `loan_years` is an integer
widget value and `num_months` is used as a power's exponent. -/
def num_months (p : OS4PParams) : ℤ :=
  p.loan_years * 12

/-- Embeds `monthly_debt_payment` (line 111), the value of
`(debt * monthly_interest_rate) / (1 - (1 + monthly_interest_rate) ** -num_months)`
when it does not raise (the raising cases are guarded in `calculate_os4p`). -/
def monthly_debt_payment (p : OS4PParams) : ℚ :=
  (debt p * monthly_interest_rate p) /
    (1 - (1 + monthly_interest_rate p) ^ (-(num_months p)))

/-- Embeds `lifetime_debt_payment` (line 112). -/
def lifetime_debt_payment (p : OS4PParams) : ℚ :=
  monthly_debt_payment p * ((num_months p : ℚ))

/-- Embeds `sla_multiplier` (line 114). -/
def sla_multiplier (p : OS4PParams) : ℚ :=
  1 + p.sla_premium / 100

/-- Embeds `monthly_fee_unit` (line 115). -/
def monthly_fee_unit (p : OS4PParams) : ℚ :=
  ((monthly_debt_payment p / p.num_outposts) + (annual_opex_per_outpost p / 12)) *
    sla_multiplier p

/-- Embeds `annual_fee_unit` (line 116). -/
def annual_fee_unit (p : OS4PParams) : ℚ :=
  monthly_fee_unit p * 12

/-- Embeds `lifetime_fee_total` (line 117). -/
def lifetime_fee_total (p : OS4PParams) : ℚ :=
  annual_fee_unit p * p.num_outposts * (p.loan_years : ℚ)

/-- Embeds `payback_years` (lines 119-122), `float('inf')` when the fee is not
positive. -/
def payback_years (p : OS4PParams) : PyNum :=
  if annual_fee_unit p * p.num_outposts > 0 then
    .fin (lifetime_debt_payment p / (annual_fee_unit p * p.num_outposts))
  else .inf

/-- Embeds `cost_efficiency_per_ton` (line 124): `float('inf')` sentinel when the
fleet-wide absolute avoidance is not positive. -/
def cost_efficiency_per_ton (p : OS4PParams) : PyNum :=
  if ghg_abs_avoidance_all_outposts p > 0 then
    .fin (total_grant p / ghg_abs_avoidance_all_outposts p)
  else .inf

/-- Embeds `cost_efficiency_lifetime` (line 125). -/
def cost_efficiency_lifetime (p : OS4PParams) : PyNum :=
  if ghg_abs_avoidance_lifetime p > 0 then
    .fin (total_grant p / ghg_abs_avoidance_lifetime p)
  else .inf

/-- Embeds `innovation_fund_score` (line 127). -/
def innovation_fund_score (p : OS4PParams) : ℚ :=
  calculate_innovation_fund_score (cost_efficiency_per_ton p)

/-- Embeds `innovation_fund_score_lifetime` (line 128). -/
def innovation_fund_score_lifetime (p : OS4PParams) : ℚ :=
  calculate_innovation_fund_score (cost_efficiency_lifetime p)

/-- Embeds `tco` (line 130). -/
def tco (p : OS4PParams) : ℚ :=
  total_capex p + lifetime_opex p

/-- Embeds `tco_per_outpost` (line 131). -/
def tco_per_outpost (p : OS4PParams) : ℚ :=
  tco p / p.num_outposts

/-- Embeds `CRF` (OS4P_dashboard.py lines 135-138): the code sets the capital
recovery factor to `0` whenever `(1+r)**n - 1 == 0` — in particular at
`r = 0`. -/
def CRF (r : ℚ) (n : ℤ) : ℚ :=
  if (1 + r) ^ n - 1 ≠ 0 then (r * (1 + r) ^ n) / ((1 + r) ^ n - 1) else 0

/-- Embeds `annualized_capex` (line 139), using `r = interest_rate / 100` and
`n = loan_years` (lines 133-134). -/
def annualized_capex (p : OS4PParams) : ℚ :=
  total_capex_per_outpost p * CRF (p.interest_rate / 100) p.loan_years

/-- Embeds `lcoe` (lines 140-141), the value of the division when
`annual_energy_production` is nonzero (the raising case is guarded in
`calculate_os4p`). -/
def lcoe (p : OS4PParams) : ℚ :=
  (annualized_capex p + annual_opex_per_outpost p) / p.annual_energy_production

/-- The flat output record of `calculate_os4p` (the `result` dict of
OS4P_dashboard.py lines 148-189).  The two nested breakdown dicts and the
`co2_factors` dict are flattened into scalar fields. -/
structure OS4PResult where
  ghg_abs_avoidance_per_outpost : ℚ
  ghg_abs_avoidance_all_outposts : ℚ
  ghg_abs_avoidance_lifetime : ℚ
  ghg_rel_avoidance : ℚ
  daily_fuel_consumption : ℚ
  manned_co2_emissions : ℚ
  autonomous_co2_emissions : ℚ
  total_capex : ℚ
  total_capex_per_outpost : ℚ
  annual_opex : ℚ
  annual_opex_per_outpost : ℚ
  lifetime_opex : ℚ
  tco : ℚ
  tco_per_outpost : ℚ
  monthly_debt_payment : ℚ
  monthly_fee_unit : ℚ
  annual_fee_unit : ℚ
  lifetime_fee_total : ℚ
  cost_efficiency_per_ton : PyNum
  cost_efficiency_lifetime : PyNum
  innovation_fund_score : ℚ
  innovation_fund_score_lifetime : ℚ
  pilot_markup : ℚ
  non_unit_cost : ℚ
  total_pilot_cost : ℚ
  total_grant : ℚ
  debt : ℚ
  lifetime_debt_payment : ℚ
  lcoe : ℚ
  payback_years : PyNum
  capex_breakdown_microgrid : ℚ
  capex_breakdown_drones : ℚ
  opex_breakdown_maintenance : ℚ
  opex_breakdown_communications : ℚ
  opex_breakdown_security : ℚ
  co2_factors_manned : ℚ
  co2_factors_autonomous : ℚ

/-- The `result` record that `calculate_os4p` returns when no division
raises (OS4P_dashboard.py lines 148-191): every field is the corresponding
assignment of lines 69-146, each embedded as its own definition above. -/
def os4p_result (p : OS4PParams) : OS4PResult where
  ghg_abs_avoidance_per_outpost := ghg_abs_avoidance_per_outpost p
  ghg_abs_avoidance_all_outposts := ghg_abs_avoidance_all_outposts p
  ghg_abs_avoidance_lifetime := ghg_abs_avoidance_lifetime p
  ghg_rel_avoidance := ghg_rel_avoidance p
  daily_fuel_consumption := daily_fuel_consumption p
  manned_co2_emissions := manned_co2_emissions p
  autonomous_co2_emissions := autonomous_co2_emissions p
  total_capex := total_capex p
  total_capex_per_outpost := total_capex_per_outpost p
  annual_opex := annual_opex p
  annual_opex_per_outpost := annual_opex_per_outpost p
  lifetime_opex := lifetime_opex p
  tco := tco p
  tco_per_outpost := tco_per_outpost p
  monthly_debt_payment := monthly_debt_payment p
  monthly_fee_unit := monthly_fee_unit p
  annual_fee_unit := annual_fee_unit p
  lifetime_fee_total := lifetime_fee_total p
  cost_efficiency_per_ton := cost_efficiency_per_ton p
  cost_efficiency_lifetime := cost_efficiency_lifetime p
  innovation_fund_score := innovation_fund_score p
  innovation_fund_score_lifetime := innovation_fund_score_lifetime p
  pilot_markup := pilot_markup p
  non_unit_cost := non_unit_cost p
  total_pilot_cost := total_pilot_cost p
  total_grant := total_grant p
  debt := debt p
  lifetime_debt_payment := lifetime_debt_payment p
  lcoe := lcoe p
  payback_years := payback_years p
  capex_breakdown_microgrid := p.microgrid_capex * p.num_outposts
  capex_breakdown_drones := p.drones_capex * p.num_outposts
  opex_breakdown_maintenance := p.maintenance_opex * p.num_outposts
  opex_breakdown_communications := p.communications_opex * p.num_outposts
  opex_breakdown_security := p.security_opex * p.num_outposts
  co2_factors_manned := manned_co2_emissions p / 1000
  co2_factors_autonomous := autonomous_co2_emissions p / 1000

/-- Embeds `calculate_os4p` (OS4P_dashboard.py lines 46-191).  The guards are the
statements of the body that raise `ZeroDivisionError`, in source order:

* line 111, `(1 + monthly_interest_rate) ** -num_months` raises when the
  base is `0.0` and the exponent is negative;
* line 111, the division raises when `1 - (1+mr)**-num_months == 0 `
  (in particular whenever `interest_rate == 0`: the code has no
  zero-interest special case);
* lines 115 and 131, division by `num_outposts`;
* line 136, `(1+r)**n` raises when `1 + r == 0` and `n` is negative;
* line 141, division by `annual_energy_production`.

No other statement of the body can raise: there is no input validation and
no `InvalidInputError` anywhere in the source. -/
def calculate_os4p (p : OS4PParams) : Except PyErr OS4PResult :=
  if 1 + monthly_interest_rate p = 0 ∧ -(num_months p) < 0 then .error .zeroDivision
  else if 1 - (1 + monthly_interest_rate p) ^ (-(num_months p)) = 0 then .error .zeroDivision
  else if p.num_outposts = 0 then .error .zeroDivision
  else if 1 + p.interest_rate / 100 = 0 ∧ p.loan_years < 0 then .error .zeroDivision
  else if p.annual_energy_production = 0 then .error .zeroDivision
  else .ok (os4p_result p)

theorem calculate_os4p_ok_iff (p : OS4PParams) (res : OS4PResult) :
    calculate_os4p p = Except.ok res ↔
      (¬(1 + monthly_interest_rate p = 0 ∧ -(num_months p) < 0) ∧
       1 - (1 + monthly_interest_rate p) ^ (-(num_months p)) ≠ 0 ∧
       p.num_outposts ≠ 0 ∧
       ¬(1 + p.interest_rate / 100 = 0 ∧ p.loan_years < 0) ∧
       p.annual_energy_production ≠ 0 ∧
       res = os4p_result p) := by
  unfold calculate_os4p
  split_ifs with h1 h2 h3 h4 h5
  · exact ⟨fun h => by simp at h, fun hh => absurd h1 hh.1⟩
  · exact ⟨fun h => by simp at h, fun hh => absurd h2 hh.2.1⟩
  · exact ⟨fun h => by simp at h, fun hh => absurd h3 hh.2.2.1⟩
  · exact ⟨fun h => by simp at h, fun hh => absurd h4 hh.2.2.2.1⟩
  · exact ⟨fun h => by simp at h, fun hh => absurd h5 hh.2.2.2.2.1⟩
  · exact ⟨fun h => ⟨h1, h2, h3, h4, h5, (Except.ok.inj h).symm⟩,
      fun hh => by rw [hh.2.2.2.2.2]⟩

/-- Sufficient conditions for `calculate_os4p` to return its result record
(used to discharge the success hypotheses of the claim theorems at concrete
inputs). -/
theorem calculate_os4p_eq_ok (p : OS4PParams)
    (ha : 1 + monthly_interest_rate p ≠ 0)
    (hb : 1 - (1 + monthly_interest_rate p) ^ (-(num_months p)) ≠ 0)
    (hc : p.num_outposts ≠ 0)
    (hd : 1 + p.interest_rate / 100 ≠ 0)
    (he : p.annual_energy_production ≠ 0) :
    calculate_os4p p = Except.ok (os4p_result p) :=
  (calculate_os4p_ok_iff p (os4p_result p)).2
    ⟨fun h => ha h.1, hb, hc, fun h => hd h.1, he, rfl⟩

namespace OS4P

/-- The output record of the older `calculate_os4p` variant
(OS4P.py lines 39-45). -/
structure CalcResult where
  co2_savings_per_outpost : ℚ
  co2_savings_all_outposts : ℚ
  co2_savings_lifetime : ℚ
  monthly_debt_payment : ℚ
  monthly_fee_unit : ℚ

/-- The record the OS4P.py `calculate_os4p` returns when no division raises:
constants of lines 8-12, CO₂ savings of lines 15-21, financials of lines
24-33, fee of lines 36-37.  Unlike the dashboard variant, this variant has
no OPEX inputs and its `monthly_fee_unit` (line 37) is
`(monthly_debt_payment / num_outposts) * sla_multiplier` with no OPEX
term. -/
def calc_result (num_outposts fuel_consumption interest_rate : ℚ)
    (loan_years : ℤ) (sla_premium : ℚ) : CalcResult :=
  let operating_days_per_year : ℚ := 300
  let co2_factor : ℚ := 1.0
  let maintenance_emissions : ℚ := 1594.3
  let microgrid_capex : ℚ := 110000
  let drones_capex : ℚ := 60000
  let daily_fuel_consumption := fuel_consumption * 8 + 2.5 * 24
  let annual_fuel_consumption := daily_fuel_consumption * operating_days_per_year
  let manned_co2_emissions := annual_fuel_consumption * co2_factor
  let autonomous_co2_emissions := maintenance_emissions
  let co2_savings_per_outpost := (manned_co2_emissions - autonomous_co2_emissions) / 1000
  let co2_savings_all_outposts := co2_savings_per_outpost * num_outposts
  let co2_savings_lifetime := co2_savings_all_outposts * (loan_years : ℚ)
  let total_capex := (microgrid_capex + drones_capex) * num_outposts
  let pilot_markup := total_capex * 1.25
  let grant_coverage : ℚ := 0.60
  let total_grant := grant_coverage * pilot_markup
  let debt := pilot_markup - total_grant
  let monthly_interest_rate := interest_rate / 100 / 12
  let num_months : ℤ := loan_years * 12
  let monthly_debt_payment :=
    (debt * monthly_interest_rate) / (1 - (1 + monthly_interest_rate) ^ (-num_months))
  let sla_multiplier := 1 + sla_premium / 100
  let monthly_fee_unit := (monthly_debt_payment / num_outposts) * sla_multiplier
  { co2_savings_per_outpost := co2_savings_per_outpost
    co2_savings_all_outposts := co2_savings_all_outposts
    co2_savings_lifetime := co2_savings_lifetime
    monthly_debt_payment := monthly_debt_payment
    monthly_fee_unit := monthly_fee_unit }

/-- Embeds `calculate_os4p` (OS4P.py lines 6-45).  Guards, in source order, are
the statements that raise `ZeroDivisionError`: line 33's power (base `0.0`
with negative exponent) and division (denominator
`1 - (1+mr)**-num_months == 0`, which happens in particular whenever
`interest_rate == 0`: this variant has no zero-interest special case
either), and line 37's division by `num_outposts`. -/
def calculate_os4p (num_outposts fuel_consumption interest_rate : ℚ)
    (loan_years : ℤ) (sla_premium : ℚ) : Except PyErr CalcResult :=
  if 1 + interest_rate / 100 / 12 = 0 ∧ -(loan_years * 12) < 0 then .error .zeroDivision
  else if 1 - (1 + interest_rate / 100 / 12) ^ (-(loan_years * 12)) = 0 then .error .zeroDivision
  else if num_outposts = 0 then .error .zeroDivision
  else .ok (calc_result num_outposts fuel_consumption interest_rate loan_years sla_premium)

theorem legacy_calculate_os4p_ok_iff (n f i : ℚ) (ly : ℤ) (s : ℚ) (res : CalcResult) :
    calculate_os4p n f i ly s = Except.ok res ↔
      (¬(1 + i / 100 / 12 = 0 ∧ -(ly * 12) < 0) ∧
       1 - (1 + i / 100 / 12) ^ (-(ly * 12)) ≠ 0 ∧
       n ≠ 0 ∧
       res = calc_result n f i ly s) := by
  unfold calculate_os4p
  split_ifs with h1 h2 h3
  · exact ⟨fun h => by simp at h, fun hh => absurd h1 hh.1⟩
  · exact ⟨fun h => by simp at h, fun hh => absurd h2 hh.2.1⟩
  · exact ⟨fun h => by simp at h, fun hh => absurd h3 hh.2.2.1⟩
  · exact ⟨fun h => ⟨h1, h2, h3, (Except.ok.inj h).symm⟩, fun hh => by rw [hh.2.2.2]⟩

theorem legacy_calculate_os4p_eq_ok (n f i : ℚ) (ly : ℤ) (s : ℚ)
    (ha : 1 + i / 100 / 12 ≠ 0)
    (hb : 1 - (1 + i / 100 / 12) ^ (-(ly * 12)) ≠ 0)
    (hc : n ≠ 0) :
    calculate_os4p n f i ly s = Except.ok (calc_result n f i ly s) :=
  (legacy_calculate_os4p_ok_iff n f i ly s _).2 ⟨fun h => ha h.1, hb, hc, rfl⟩

end OS4P

/-- The per-row Innovation-Fund score of `create_innovation_fund_score_chart`
(OS4P_dashboard.py lines 283-289): the chart reconstructs the
cost-efficiency ratio as `500000 / Absolute_Avoidance_All_Outposts` — a
hardcoded grant placeholder of 500,000 — instead of using the grant amount
of the calculation, and scores `0` when the avoidance is not positive. -/
def chart_innovation_score (avoidance_all_outposts : ℚ) : ℚ :=
  if avoidance_all_outposts > 0 then
    calculate_innovation_fund_score (.fin (500000 / avoidance_all_outposts))
  else 0

/-- The Innovation Fund scoring formula as the specification words it:
`clamp(round_to_half(12 − 12 × ratio/2000), 0, 12)` for ratios `≤ 2000`,
otherwise `0`.  Stated from the spec's words (not from the source) to be
compared with `calculate_innovation_fund_score`. -/
def spec_innovation_score (r : ℚ) : ℚ :=
  if r ≤ 2000 then
    min 12 (max 0 ((pyRound ((12 - 12 * (r / 2000)) * 2) : ℚ) / 2))
  else 0

/-- The module-level mutable state visible to the dashboard script: the
Streamlit session flag of OS4P_dashboard.py lines 14-24.  The body of
`calculate_os4p` (lines 46-191) reads only `params` and its own locals: it
performs no I/O and assigns no global and no session state, so its faithful
state-threaded embedding `calculate_os4p_call` returns the state
unchanged. -/
structure World where
  video_viewed : Bool

/-- A call of `calculate_os4p` threaded through the module state. -/
def calculate_os4p_call (w : World) (p : OS4PParams) :
    Except PyErr OS4PResult × World :=
  (calculate_os4p p, w)

theorem le_pyRound (q : ℚ) : q - 1/2 ≤ (pyRound q : ℚ) := by
  have hc : q < (⌊q⌋ : ℚ) + 1 := Int.lt_floor_add_one q
  unfold pyRound
  split_ifs with h1 h2 h3
  · linarith
  · push_cast
    linarith
  · linarith [not_lt.mp h2]
  · push_cast
    linarith

theorem pyRound_le (q : ℚ) : (pyRound q : ℚ) ≤ q + 1/2 := by
  have hf : ((⌊q⌋ : ℤ) : ℚ) ≤ q := Int.floor_le q
  unfold pyRound
  split_ifs with h1 h2 h3
  · linarith
  · push_cast
    linarith
  · linarith
  · push_cast
    linarith [not_lt.mp h1]

/-- A concrete valid input for the dashboard `calculate_os4p`: the source's
sidebar widget values for the fleet, emission and cost fields, with a loan
term of 1 year and an interest rate of 1200 % so that the monthly rate is
exactly 1 and the amortization power is `2 ^ (-12) = 1/4096`, keeping every
intermediate value an easily checked rational. -/
def baseParams : OS4PParams where
  num_outposts := 5
  large_patrol_fuel := 150
  rib_fuel := 50
  small_patrol_fuel := 30
  hours_per_day_base := 8
  interest_rate := 1200
  loan_years := 1
  sla_premium := 15
  operating_days_per_year := 300
  co2_factor := 1
  maintenance_emissions := 1594.3
  microgrid_capex := 110000
  drones_capex := 60000
  maintenance_opex := 2000
  communications_opex := 1000
  security_opex := 0
  number_diesel_generators := some 1
  genset_fuel_per_hour := 2.5
  genset_operating_hours := 24
  num_ms240_gd_vehicles := 0
  ms240_gd_fuel_consumption := 15
  num_large_patrol_boats := 1
  num_rib_boats := 1
  num_small_patrol_boats := 1
  lifetime_years := 20
  non_unit_cost_pct := some 0
  annual_energy_production := 20000

/-- Embeds `p` with its outpost count doubled and every other field unchanged. -/
def doubleOutposts (p : OS4PParams) : OS4PParams :=
  { p with num_outposts := 2 * p.num_outposts }

/-- Embeds `p` with its outpost count replaced and every other field unchanged. -/
def withOutposts (p : OS4PParams) (m : ℚ) : OS4PParams :=
  { p with num_outposts := m }

/-- The C1 failing input: the base input with `interest_rate = 0` and a
10-year loan (every precondition of the claim holds: positive outpost
count, positive loan term). -/
def c1params : OS4PParams :=
  { baseParams with interest_rate := 0, loan_years := 10 }

/-- C1: "For every input with interest_rate == 0 (all other preconditions
holding) calculate_os4p returns monthly_debt_payment equal to
debt / num_months exactly, raising no division-by-zero exception."
The code has no zero-interest special case: at `interest_rate = 0` the
amortization denominator `1 - (1 + 0) ** -num_months` is `0` and both
variants raise `ZeroDivisionError` instead of returning `debt /
num_months`. -/
theorem c1_zero_interest_division_error :
    calculate_os4p c1params = Except.error PyErr.zeroDivision ∧
    OS4P.calculate_os4p 5 25 0 10 15 = Except.error PyErr.zeroDivision := by
  constructor
  · have h1 : ¬(1 + monthly_interest_rate c1params = 0 ∧ -(num_months c1params) < 0) := by
      norm_num [monthly_interest_rate, c1params, baseParams]
    have h2 : 1 - (1 + monthly_interest_rate c1params) ^ (-(num_months c1params)) = 0 := by
      norm_num [monthly_interest_rate, num_months, c1params, baseParams]
    unfold calculate_os4p
    rw [if_neg h1, if_pos h2]
  · norm_num [OS4P.calculate_os4p]

/-- The C2 failing input: the base input with `num_outposts = -1`, a
non-positive outpost count. -/
def c2params : OS4PParams :=
  { baseParams with num_outposts := -1 }

/-- C2: "For every input in which outpost count, loan term, or annual
energy production is ≤ 0, or a required field is missing, calculate_os4p
fails by raising InvalidInputError ... rather than silently producing a
numeric result containing NaN or infinity."  The source performs no input
validation and defines no InvalidInputError: at `num_outposts = -1` it
completes normally and silently returns a record whose
`cost_efficiency_per_ton` is the value `float('inf')`. -/
theorem c2_no_invalid_input_error :
    calculate_os4p c2params = Except.ok (os4p_result c2params) ∧
    (os4p_result c2params).cost_efficiency_per_ton = PyNum.inf := by
  constructor
  · exact calculate_os4p_eq_ok c2params
      (by norm_num [monthly_interest_rate, c2params, baseParams])
      (by norm_num [monthly_interest_rate, num_months, c2params, baseParams])
      (by norm_num [c2params, baseParams])
      (by norm_num [c2params, baseParams])
      (by norm_num [c2params, baseParams])
  · show cost_efficiency_per_ton c2params = PyNum.inf
    unfold cost_efficiency_per_ton
    rw [if_neg]
    norm_num [ghg_abs_avoidance_all_outposts, ghg_abs_avoidance_per_outpost,
      manned_co2_emissions, annual_fuel_consumption, daily_fuel_consumption,
      genset_fuel_per_day, ms240_gd_fuel_per_day, diesel_generator_count,
      autonomous_co2_emissions, c2params, baseParams]

/-- The C3 witness input: the base input with the autonomous maintenance
emissions set to 570000 kg, exactly the manned emissions of the base fleet
configuration, so that `manned_co2_emissions == autonomous_co2_emissions`. -/
def c3params : OS4PParams :=
  { baseParams with maintenance_emissions := 570000 }

/-- C3: when `manned_co2_emissions == autonomous_co2_emissions`, every
absolute-avoidance output is 0, `cost_efficiency_per_ton` is the sentinel
`float('inf')` (no exception), and `innovation_fund_score` is 0. -/
theorem c3_zero_avoidance_sentinel (p : OS4PParams) (res : OS4PResult)
    (h : calculate_os4p p = Except.ok res)
    (hm : manned_co2_emissions p = autonomous_co2_emissions p) :
    res.ghg_abs_avoidance_per_outpost = 0 ∧
    res.ghg_abs_avoidance_all_outposts = 0 ∧
    res.ghg_abs_avoidance_lifetime = 0 ∧
    res.cost_efficiency_per_ton = PyNum.inf ∧
    res.innovation_fund_score = 0 := by
  obtain ⟨-, -, -, -, -, hres⟩ := (calculate_os4p_ok_iff p res).1 h
  subst hres
  have hper : ghg_abs_avoidance_per_outpost p = 0 := by
    unfold ghg_abs_avoidance_per_outpost
    rw [hm]
    ring
  have hall : ghg_abs_avoidance_all_outposts p = 0 := by
    unfold ghg_abs_avoidance_all_outposts
    rw [hper]
    ring
  have hlife : ghg_abs_avoidance_lifetime p = 0 := by
    unfold ghg_abs_avoidance_lifetime
    rw [hall]
    ring
  have hce : cost_efficiency_per_ton p = PyNum.inf := by
    unfold cost_efficiency_per_ton
    rw [hall]
    norm_num
  refine ⟨hper, hall, hlife, hce, ?_⟩
  show innovation_fund_score p = 0
  unfold innovation_fund_score
  rw [hce]
  rfl

theorem c3_zero_avoidance_sentinel_witness :
    manned_co2_emissions c3params = autonomous_co2_emissions c3params ∧
    ((os4p_result c3params).ghg_abs_avoidance_per_outpost = 0 ∧
     (os4p_result c3params).ghg_abs_avoidance_all_outposts = 0 ∧
     (os4p_result c3params).ghg_abs_avoidance_lifetime = 0 ∧
     (os4p_result c3params).cost_efficiency_per_ton = PyNum.inf ∧
     (os4p_result c3params).innovation_fund_score = 0) :=
  ⟨by norm_num [manned_co2_emissions, annual_fuel_consumption,
      daily_fuel_consumption, genset_fuel_per_day, ms240_gd_fuel_per_day,
      diesel_generator_count, autonomous_co2_emissions, c3params, baseParams],
   c3_zero_avoidance_sentinel c3params (os4p_result c3params)
    (calculate_os4p_eq_ok c3params
      (by norm_num [monthly_interest_rate, c3params, baseParams])
      (by norm_num [monthly_interest_rate, num_months, c3params, baseParams])
      (by norm_num [c3params, baseParams])
      (by norm_num [c3params, baseParams])
      (by norm_num [c3params, baseParams]))
    (by norm_num [manned_co2_emissions, annual_fuel_consumption,
      daily_fuel_consumption, genset_fuel_per_day, ms240_gd_fuel_per_day,
      diesel_generator_count, autonomous_co2_emissions, c3params, baseParams])⟩

/-- The C6 failing input: the base input with `interest_rate = 0` and a
10-year loan term. -/
def c6params : OS4PParams :=
  { baseParams with interest_rate := 0, loan_years := 10 }

/-- C6: "the LCOE returned by calculate_os4p equals
(capex_per_outpost × CRF(r, n) + annual_opex_per_outpost) /
annual_energy_production, where CRF(r, n) = 1/n when r == 0 ...; in
particular when the rate is 0 the annualized-CAPEX term equals
capex_per_outpost / n rather than vanishing."  At rate 0 the code's CRF
branch (lines 135-138) yields `0`, not `1/n`, so the annualized-CAPEX term
vanishes — and in fact no LCOE is returned at all, because the
amortization at line 111 raises `ZeroDivisionError` first. -/
theorem c6_lcoe_zero_rate_divergence :
    CRF 0 10 = 0 ∧ CRF 0 10 ≠ 1 / 10 ∧
    calculate_os4p c6params = Except.error PyErr.zeroDivision := by
  refine ⟨by norm_num [CRF], by norm_num [CRF], ?_⟩
  have h1 : ¬(1 + monthly_interest_rate c6params = 0 ∧ -(num_months c6params) < 0) := by
    norm_num [monthly_interest_rate, c6params, baseParams]
  have h2 : 1 - (1 + monthly_interest_rate c6params) ^ (-(num_months c6params)) = 0 := by
    norm_num [monthly_interest_rate, num_months, c6params, baseParams]
  unfold calculate_os4p
  rw [if_neg h1, if_pos h2]

/-- C8: for any fixed input record, two (state-threaded) calls of
`calculate_os4p` return identical output records, and the module state is
unchanged by a call: the result is a pure function of the inputs, with no
hidden state and no global mutation affecting the computation. -/
theorem c8_determinism_pure (w : World) (p : OS4PParams) :
    (calculate_os4p_call w p).1 =
      (calculate_os4p_call (calculate_os4p_call w p).2 p).1 ∧
    (calculate_os4p_call (calculate_os4p_call w p).2 p).2 = w ∧
    (calculate_os4p_call w p).1 = calculate_os4p p :=
  ⟨rfl, rfl, rfl⟩

/-- C4 counterexample: the claim says the score is "clamped to the interval
[0, 12]" and "never exceeds 12", but `calculate_innovation_fund_score`
applies no upper clamp: at the cost-efficiency ratio `-1000` (which passes
the `<= 2000` test) the score is `12 - 12 * (-1000/2000) = 18 > 12`. -/
theorem c4_upper_clamp_counterexample :
    12 < calculate_innovation_fund_score (PyNum.fin (-1000)) := by
  norm_num [calculate_innovation_fund_score, pyRound, pymax]

/-- C4 amended: for every NONNEGATIVE cost-efficiency ratio the code's
score agrees with the spec's clamped formula
`clamp(round_to_half(12 − 12·ratio/2000), 0, 12)` (the upper clamp being
vacuous there), the score lies in [0, 12], and the boundary values are
ratio 0 ↦ 12, 1000 ↦ 6, 2000 ↦ 0, 4000 ↦ 0.  For negative ratios the code
applies no ceiling and can exceed 12 (see the counterexample). -/
theorem c4_innovation_score_amended :
    (∀ r : ℚ, 0 ≤ r →
      calculate_innovation_fund_score (.fin r) = spec_innovation_score r ∧
      0 ≤ calculate_innovation_fund_score (.fin r) ∧
      calculate_innovation_fund_score (.fin r) ≤ 12) ∧
    calculate_innovation_fund_score (.fin 0) = 12 ∧
    calculate_innovation_fund_score (.fin 1000) = 6 ∧
    calculate_innovation_fund_score (.fin 2000) = 0 ∧
    calculate_innovation_fund_score (.fin 4000) = 0 := by
  refine ⟨?_, ?_, ?_, ?_, ?_⟩
  · intro r hr
    by_cases hle : r ≤ 2000
    · have hcode : calculate_innovation_fund_score (.fin r) =
          pymax 0 ((pyRound ((12 - (12 * (r / 2000))) * 2) : ℚ) / 2) := by
        simp only [calculate_innovation_fund_score]
        rw [if_pos hle]
      have hspec : spec_innovation_score r =
          min 12 (max 0 ((pyRound ((12 - 12 * (r / 2000)) * 2) : ℚ) / 2)) := by
        unfold spec_innovation_score
        rw [if_pos hle]
      have hdiv : 0 ≤ r / 2000 := div_nonneg hr (by norm_num)
      have hub := pyRound_le ((12 - (12 * (r / 2000))) * 2)
      have hint : pyRound ((12 - (12 * (r / 2000))) * 2) ≤ 24 := by
        have h25 : (pyRound ((12 - (12 * (r / 2000))) * 2) : ℚ) < 25 := by linarith
        exact_mod_cast Int.lt_add_one_iff.mp (by exact_mod_cast h25)
      have hv : ((pyRound ((12 - (12 * (r / 2000))) * 2) : ℤ) : ℚ) / 2 ≤ 12 := by
        have h24 : ((pyRound ((12 - (12 * (r / 2000))) * 2) : ℤ) : ℚ) ≤ 24 := by
          exact_mod_cast hint
        linarith
      have hmx : max 0 ((pyRound ((12 - (12 * (r / 2000))) * 2) : ℚ) / 2) ≤ 12 :=
        max_le (by norm_num) hv
      refine ⟨?_, ?_, ?_⟩
      · rw [hcode, hspec, pymax_eq_max, min_eq_right hmx]
      · rw [hcode, pymax_eq_max]
        exact le_max_left 0 _
      · rw [hcode, pymax_eq_max]
        exact hmx
    · have hcode : calculate_innovation_fund_score (.fin r) = 0 := by
        simp only [calculate_innovation_fund_score]
        rw [if_neg hle]
      have hspec : spec_innovation_score r = 0 := by
        unfold spec_innovation_score
        rw [if_neg hle]
      exact ⟨by rw [hcode, hspec], by rw [hcode], by rw [hcode]; norm_num⟩
  · norm_num [calculate_innovation_fund_score, pyRound, pymax]
  · norm_num [calculate_innovation_fund_score, pyRound, pymax]
  · norm_num [calculate_innovation_fund_score, pyRound, pymax]
  · norm_num [calculate_innovation_fund_score, pyRound, pymax]

theorem c4_innovation_score_amended_witness :
    (0 : ℚ) ≤ 125 ∧
    (calculate_innovation_fund_score (.fin 125) = spec_innovation_score 125 ∧
     0 ≤ calculate_innovation_fund_score (.fin 125) ∧
     calculate_innovation_fund_score (.fin 125) ≤ 12) :=
  ⟨by norm_num, c4_innovation_score_amended.1 125 (by norm_num)⟩

/-- The C5 input for the dashboard variant (the base input). -/
def c5params : OS4PParams := baseParams

/-- C5 counterexample: on corresponding inputs (same CAPEX of 110000+60000
per outpost, 5 outposts, same financing terms, no overhead — i.e. exactly
the constants OS4P.py hardcodes) the two `calculate_os4p` variants return
the same `monthly_debt_payment` but different `monthly_fee_unit`: the
OS4P.py variant's fee omits the `annual_opex_per_outpost / 12` term of the
claimed formula (the dashboard input's annual OPEX per outpost is 3000). -/
theorem c5_legacy_fee_omits_opex :
    OS4P.calculate_os4p 5 25 1200 1 15 =
      Except.ok (OS4P.calc_result 5 25 1200 1 15) ∧
    calculate_os4p c5params = Except.ok (os4p_result c5params) ∧
    (OS4P.calc_result 5 25 1200 1 15).monthly_debt_payment =
      (os4p_result c5params).monthly_debt_payment ∧
    (OS4P.calc_result 5 25 1200 1 15).monthly_fee_unit ≠
      (os4p_result c5params).monthly_fee_unit ∧
    (OS4P.calc_result 5 25 1200 1 15).monthly_fee_unit ≠
      ((OS4P.calc_result 5 25 1200 1 15).monthly_debt_payment / 5 +
        annual_opex_per_outpost c5params / 12) * (1 + 15 / 100) := by
  refine ⟨OS4P.legacy_calculate_os4p_eq_ok 5 25 1200 1 15
      (by norm_num) (by norm_num) (by norm_num),
    calculate_os4p_eq_ok c5params
      (by norm_num [monthly_interest_rate, c5params, baseParams])
      (by norm_num [monthly_interest_rate, num_months, c5params, baseParams])
      (by norm_num [c5params, baseParams])
      (by norm_num [c5params, baseParams])
      (by norm_num [c5params, baseParams]), ?_, ?_, ?_⟩
  · show (OS4P.calc_result 5 25 1200 1 15).monthly_debt_payment =
      monthly_debt_payment c5params
    norm_num [OS4P.calc_result, monthly_debt_payment, debt, total_grant,
      total_pilot_cost, non_unit_cost, pilot_markup, total_capex,
      total_capex_per_outpost, monthly_interest_rate, num_months,
      c5params, baseParams]
  · show (OS4P.calc_result 5 25 1200 1 15).monthly_fee_unit ≠
      monthly_fee_unit c5params
    norm_num [OS4P.calc_result, monthly_fee_unit, monthly_debt_payment, debt,
      total_grant, total_pilot_cost, non_unit_cost, pilot_markup, total_capex,
      total_capex_per_outpost, annual_opex_per_outpost, monthly_interest_rate,
      num_months, sla_multiplier, c5params, baseParams]
  · norm_num [OS4P.calc_result, annual_opex_per_outpost, c5params, baseParams]

/-- C5 amended: the dashboard variant's fee satisfies the claimed formula
`(monthly_debt_payment/outpost_count + annual_opex_per_outpost/12) ×
(1 + sla_premium/100)`, but the OS4P.py variant computes
`(monthly_debt_payment/outpost_count) × (1 + sla_premium/100)` with no
OPEX term, so the two variants are not the same logical function (they
disagree whenever the annual OPEX per outpost is nonzero). -/
theorem c5_monthly_fee_formula_amended :
    (∀ (p : OS4PParams) (res : OS4PResult), calculate_os4p p = Except.ok res →
      res.monthly_fee_unit =
        (res.monthly_debt_payment / p.num_outposts + annual_opex_per_outpost p / 12) *
          (1 + p.sla_premium / 100)) ∧
    (∀ (n f i : ℚ) (ly : ℤ) (s : ℚ) (lr : OS4P.CalcResult),
      OS4P.calculate_os4p n f i ly s = Except.ok lr →
      lr.monthly_fee_unit = (lr.monthly_debt_payment / n) * (1 + s / 100)) := by
  constructor
  · intro p res h
    obtain ⟨-, -, -, -, -, hres⟩ := (calculate_os4p_ok_iff p res).1 h
    subst hres
    rfl
  · intro n f i ly s lr h
    obtain ⟨-, -, -, hres⟩ := (OS4P.legacy_calculate_os4p_ok_iff n f i ly s lr).1 h
    subst hres
    rfl

theorem c5_monthly_fee_formula_amended_witness :
    (os4p_result c5params).monthly_fee_unit =
      ((os4p_result c5params).monthly_debt_payment / c5params.num_outposts +
        annual_opex_per_outpost c5params / 12) * (1 + c5params.sla_premium / 100) ∧
    (OS4P.calc_result 5 25 1200 1 15).monthly_fee_unit =
      ((OS4P.calc_result 5 25 1200 1 15).monthly_debt_payment / 5) * (1 + 15 / 100) :=
  ⟨c5_monthly_fee_formula_amended.1 c5params (os4p_result c5params)
    (calculate_os4p_eq_ok c5params
      (by norm_num [monthly_interest_rate, c5params, baseParams])
      (by norm_num [monthly_interest_rate, num_months, c5params, baseParams])
      (by norm_num [c5params, baseParams])
      (by norm_num [c5params, baseParams])
      (by norm_num [c5params, baseParams])),
   c5_monthly_fee_formula_amended.2 5 25 1200 1 15 (OS4P.calc_result 5 25 1200 1 15)
    (OS4P.legacy_calculate_os4p_eq_ok 5 25 1200 1 15 (by norm_num) (by norm_num) (by norm_num))⟩

/-- C7: holding all other inputs fixed, doubling the outpost count keeps
the calculation succeeding and exactly doubles `total_capex`,
`annual_opex` and `ghg_abs_avoidance_all_outposts`. -/
theorem c7_scale_linearity (p : OS4PParams) (res : OS4PResult)
    (h : calculate_os4p p = Except.ok res) :
    calculate_os4p (doubleOutposts p) = Except.ok (os4p_result (doubleOutposts p)) ∧
    (os4p_result (doubleOutposts p)).total_capex = 2 * res.total_capex ∧
    (os4p_result (doubleOutposts p)).annual_opex = 2 * res.annual_opex ∧
    (os4p_result (doubleOutposts p)).ghg_abs_avoidance_all_outposts =
      2 * res.ghg_abs_avoidance_all_outposts := by
  obtain ⟨h1, h2, h3, h4, h5, hres⟩ := (calculate_os4p_ok_iff p res).1 h
  subst hres
  refine ⟨(calculate_os4p_ok_iff _ _).2 ⟨h1, h2, ?_, h4, h5, rfl⟩, ?_, ?_, ?_⟩
  · show 2 * p.num_outposts ≠ 0
    exact mul_ne_zero two_ne_zero h3
  · show total_capex_per_outpost (doubleOutposts p) * (2 * p.num_outposts) =
      2 * (total_capex_per_outpost p * p.num_outposts)
    have hc : total_capex_per_outpost (doubleOutposts p) = total_capex_per_outpost p := rfl
    rw [hc]
    ring
  · show annual_opex_per_outpost (doubleOutposts p) * (2 * p.num_outposts) =
      2 * (annual_opex_per_outpost p * p.num_outposts)
    have hc : annual_opex_per_outpost (doubleOutposts p) = annual_opex_per_outpost p := rfl
    rw [hc]
    ring
  · show ghg_abs_avoidance_per_outpost (doubleOutposts p) * (2 * p.num_outposts) =
      2 * (ghg_abs_avoidance_per_outpost p * p.num_outposts)
    have hc : ghg_abs_avoidance_per_outpost (doubleOutposts p) =
      ghg_abs_avoidance_per_outpost p := rfl
    rw [hc]
    ring

/-- The C7 witness input: the base input with 3 outposts. -/
def c7params : OS4PParams :=
  { baseParams with num_outposts := 3 }

theorem c7_scale_linearity_witness :
    calculate_os4p (doubleOutposts c7params) =
      Except.ok (os4p_result (doubleOutposts c7params)) ∧
    (os4p_result (doubleOutposts c7params)).total_capex =
      2 * (os4p_result c7params).total_capex ∧
    (os4p_result (doubleOutposts c7params)).annual_opex =
      2 * (os4p_result c7params).annual_opex ∧
    (os4p_result (doubleOutposts c7params)).ghg_abs_avoidance_all_outposts =
      2 * (os4p_result c7params).ghg_abs_avoidance_all_outposts :=
  c7_scale_linearity c7params (os4p_result c7params)
    (calculate_os4p_eq_ok c7params
      (by norm_num [monthly_interest_rate, c7params, baseParams])
      (by norm_num [monthly_interest_rate, num_months, c7params, baseParams])
      (by norm_num [c7params, baseParams])
      (by norm_num [c7params, baseParams])
      (by norm_num [c7params, baseParams]))

/-- The C9 input: the base input with a single outpost. -/
def c9params : OS4PParams :=
  { baseParams with num_outposts := 1 }

/-- C9: on the input `c9params` the sensitivity chart of
`create_innovation_fund_score_chart` — which reconstructs the
cost-efficiency ratio from the hardcoded 500000 grant placeholder —
plots a different Innovation Fund score (6.5) than the
`innovation_fund_score` that `calculate_os4p` computes from the real grant
amount of 127500 on the same input (10.5). -/
theorem c9_chart_score_mismatch :
    calculate_os4p c9params = Except.ok (os4p_result c9params) ∧
    chart_innovation_score (os4p_result c9params).ghg_abs_avoidance_all_outposts ≠
      (os4p_result c9params).innovation_fund_score := by
  refine ⟨calculate_os4p_eq_ok c9params
      (by norm_num [monthly_interest_rate, c9params, baseParams])
      (by norm_num [monthly_interest_rate, num_months, c9params, baseParams])
      (by norm_num [c9params, baseParams])
      (by norm_num [c9params, baseParams])
      (by norm_num [c9params, baseParams]), ?_⟩
  show chart_innovation_score (ghg_abs_avoidance_all_outposts c9params) ≠
    innovation_fund_score c9params
  have hall : ghg_abs_avoidance_all_outposts c9params = 5684057 / 10000 := by
    norm_num [ghg_abs_avoidance_all_outposts, ghg_abs_avoidance_per_outpost,
      manned_co2_emissions, annual_fuel_consumption, daily_fuel_consumption,
      genset_fuel_per_day, ms240_gd_fuel_per_day, diesel_generator_count,
      autonomous_co2_emissions, c9params, baseParams]
  have hgrant : total_grant c9params = 127500 := by
    norm_num [total_grant, total_pilot_cost, non_unit_cost, pilot_markup,
      total_capex, total_capex_per_outpost, c9params, baseParams]
  have hce : cost_efficiency_per_ton c9params = .fin (127500 / (5684057 / 10000)) := by
    unfold cost_efficiency_per_ton
    rw [hall, hgrant, if_pos (by norm_num)]
  unfold chart_innovation_score innovation_fund_score
  rw [hall, hce, if_pos (by norm_num : (5684057 / 10000 : ℚ) > 0)]
  norm_num [calculate_innovation_fund_score, pyRound, pymax]

/-- C10: with a positive outpost count and positive fleet avoidance, the
per-outpost outputs `monthly_fee_unit` and `cost_efficiency_per_ton` do not
depend on the outpost count: replacing `num_outposts` by any other positive
count (holding every other field fixed) leaves them unchanged, because
debt, monthly debt payment, the grant and the fleet avoidance all scale
linearly in the count. -/
theorem c10_per_outpost_invariance (p : OS4PParams) (m : ℚ)
    (res res2 : OS4PResult)
    (hn : 0 < p.num_outposts) (hm : 0 < m)
    (hav : 0 < ghg_abs_avoidance_all_outposts p)
    (h : calculate_os4p p = Except.ok res)
    (h2 : calculate_os4p (withOutposts p m) = Except.ok res2) :
    res2.monthly_fee_unit = res.monthly_fee_unit ∧
    res2.cost_efficiency_per_ton = res.cost_efficiency_per_ton := by
  obtain ⟨g1, g2, g3, g4, g5, hres⟩ := (calculate_os4p_ok_iff p res).1 h
  obtain ⟨k1, k2, k3, k4, k5, hres2⟩ := (calculate_os4p_ok_iff _ res2).1 h2
  subst hres
  subst hres2
  have hper : 0 < ghg_abs_avoidance_per_outpost p := by
    rcases mul_pos_iff.1 hav with ⟨ha, -⟩ | ⟨-, hb⟩
    · exact ha
    · exact absurd hn (not_lt.2 hb.le)
  have d1 : debt (withOutposts p m) =
      ((p.microgrid_capex + p.drones_capex) * m * 1.25 +
        (p.microgrid_capex + p.drones_capex) * m * 1.25 *
          (p.non_unit_cost_pct.getD 0 / 100)) -
      0.60 * ((p.microgrid_capex + p.drones_capex) * m * 1.25 +
        (p.microgrid_capex + p.drones_capex) * m * 1.25 *
          (p.non_unit_cost_pct.getD 0 / 100)) := rfl
  have d2 : debt p =
      ((p.microgrid_capex + p.drones_capex) * p.num_outposts * 1.25 +
        (p.microgrid_capex + p.drones_capex) * p.num_outposts * 1.25 *
          (p.non_unit_cost_pct.getD 0 / 100)) -
      0.60 * ((p.microgrid_capex + p.drones_capex) * p.num_outposts * 1.25 +
        (p.microgrid_capex + p.drones_capex) * p.num_outposts * 1.25 *
          (p.non_unit_cost_pct.getD 0 / 100)) := rfl
  have hpay : monthly_debt_payment (withOutposts p m) / m =
      monthly_debt_payment p / p.num_outposts := by
    rw [div_eq_div_iff hm.ne' hn.ne']
    show debt (withOutposts p m) * monthly_interest_rate p /
        (1 - (1 + monthly_interest_rate p) ^ (-(num_months p))) * p.num_outposts =
      debt p * monthly_interest_rate p /
        (1 - (1 + monthly_interest_rate p) ^ (-(num_months p))) * m
    rw [d1, d2]
    ring
  constructor
  · show (monthly_debt_payment (withOutposts p m) / m + annual_opex_per_outpost p / 12) *
        sla_multiplier p =
      (monthly_debt_payment p / p.num_outposts + annual_opex_per_outpost p / 12) *
        sla_multiplier p
    rw [hpay]
  · have hall2 : 0 < ghg_abs_avoidance_all_outposts (withOutposts p m) := by
      show 0 < ghg_abs_avoidance_per_outpost (withOutposts p m) * m
      have hc : ghg_abs_avoidance_per_outpost (withOutposts p m) =
        ghg_abs_avoidance_per_outpost p := rfl
      rw [hc]
      exact mul_pos hper hm
    show cost_efficiency_per_ton (withOutposts p m) = cost_efficiency_per_ton p
    unfold cost_efficiency_per_ton
    rw [if_pos hall2, if_pos hav]
    have e1 : ghg_abs_avoidance_all_outposts (withOutposts p m) =
      ghg_abs_avoidance_per_outpost p * m := rfl
    have e2 : ghg_abs_avoidance_all_outposts p =
      ghg_abs_avoidance_per_outpost p * p.num_outposts := rfl
    have e3 : total_grant (withOutposts p m) =
        0.60 * ((p.microgrid_capex + p.drones_capex) * m * 1.25 +
          (p.microgrid_capex + p.drones_capex) * m * 1.25 *
            (p.non_unit_cost_pct.getD 0 / 100)) := rfl
    have e4 : total_grant p =
        0.60 * ((p.microgrid_capex + p.drones_capex) * p.num_outposts * 1.25 +
          (p.microgrid_capex + p.drones_capex) * p.num_outposts * 1.25 *
            (p.non_unit_cost_pct.getD 0 / 100)) := rfl
    rw [e1, e2, e3, e4]
    refine congrArg PyNum.fin ?_
    rw [div_eq_div_iff (mul_pos hper hm).ne' (mul_pos hper hn).ne']
    ring

/-- The C10 witness input: the base input with 4 outposts (compared against
the same input with 7 outposts). -/
def c10params : OS4PParams :=
  { baseParams with num_outposts := 4 }

theorem c10_per_outpost_invariance_witness :
    0 < c10params.num_outposts ∧ 0 < (7 : ℚ) ∧
    0 < ghg_abs_avoidance_all_outposts c10params ∧
    ((os4p_result (withOutposts c10params 7)).monthly_fee_unit =
        (os4p_result c10params).monthly_fee_unit ∧
     (os4p_result (withOutposts c10params 7)).cost_efficiency_per_ton =
        (os4p_result c10params).cost_efficiency_per_ton) :=
  ⟨by norm_num [c10params, baseParams], by norm_num,
   by norm_num [ghg_abs_avoidance_all_outposts, ghg_abs_avoidance_per_outpost,
      manned_co2_emissions, annual_fuel_consumption, daily_fuel_consumption,
      genset_fuel_per_day, ms240_gd_fuel_per_day, diesel_generator_count,
      autonomous_co2_emissions, c10params, baseParams],
   c10_per_outpost_invariance c10params 7 (os4p_result c10params)
    (os4p_result (withOutposts c10params 7))
    (by norm_num [c10params, baseParams]) (by norm_num)
    (by norm_num [ghg_abs_avoidance_all_outposts, ghg_abs_avoidance_per_outpost,
      manned_co2_emissions, annual_fuel_consumption, daily_fuel_consumption,
      genset_fuel_per_day, ms240_gd_fuel_per_day, diesel_generator_count,
      autonomous_co2_emissions, c10params, baseParams])
    (calculate_os4p_eq_ok c10params
      (by norm_num [monthly_interest_rate, c10params, baseParams])
      (by norm_num [monthly_interest_rate, num_months, c10params, baseParams])
      (by norm_num [c10params, baseParams])
      (by norm_num [c10params, baseParams])
      (by norm_num [c10params, baseParams]))
    (calculate_os4p_eq_ok (withOutposts c10params 7)
      (by norm_num [monthly_interest_rate, withOutposts, c10params, baseParams])
      (by norm_num [monthly_interest_rate, num_months, withOutposts, c10params, baseParams])
      (by norm_num [withOutposts, c10params, baseParams])
      (by norm_num [withOutposts, c10params, baseParams])
      (by norm_num [withOutposts, c10params, baseParams]))⟩
